import Mathlib

/-!
Verification of `proptools`, a library of three stateful property
descriptors built on a shared base:

  * `StatefulPropertyBase` keeps a per-slot dictionary keyed on the owning
    instance; `__get__` returns the slot itself when accessed through the
    class, the stored value on a hit, and otherwise delegates to the
    overridable `_handleMissingValue` hook (the base hook raises
    `AttributeError`).
  * `LazyProperty` overrides the hook to call a maker function once,
    cache its result and return it.  It defines no `__set__`, so writes
    fall through to the read-only behavior inherited from `property`.
  * `TypedProperty` adds `__set__` guarded by `isinstance` and a
    `__delete__` that removes the entry or raises `AttributeError`.
  * `SetOnceProperty` adds a `__set__` that stores on a missing entry and
    otherwise raises `AttributeError` reporting the existing value, plus a
    hook returning an optional construction-time default.

The embedding below keeps the source structure: instance identity becomes
a `PyInstance` record, the weak-key dictionary becomes a partial map
`PyInstance → Option V`, raised exceptions become `Except` errors with
structured payloads, and the lazy maker takes an invocation counter so
that effectful or non-deterministic producers are representable.
-/

namespace Proptools

/-- An owning object instance: identity plus the name of its type (the
latter only feeds error messages, mirroring `type(instance).__name__`). -/
structure PyInstance where
  id : Nat
  typeName : String
deriving DecidableEq

/-- The fragment of Python's type lattice the tests exercise.  `tBool` is
a strict subtype of `tInt`, everything is a subtype of `tObject`. -/
inductive PyType where
  | tInt
  | tBool
  | tStr
  | tObject
deriving DecidableEq

/-- Runtime values carried by the properties under test. -/
inductive PyVal where
  | vInt (n : Int)
  | vBool (b : Bool)
  | vStr (s : String)
deriving DecidableEq

/-- `type(value)`: the concrete class of a value. -/
def typeOf : PyVal → PyType
  | .vInt _ => .tInt
  | .vBool _ => .tBool
  | .vStr _ => .tStr

/-- `issubclass(a, b)` on the modelled lattice: reflexive, everything
below `object`, and `bool` below `int` exactly as in Python. -/
def isSubclassB (a b : PyType) : Bool :=
  a == b || b == PyType.tObject || (a == PyType.tBool && b == PyType.tInt)

/-- `isinstance(v, t)`: the value's class is a subclass of `t`. -/
def pyIsInstance (v : PyVal) (t : PyType) : Bool :=
  isSubclassB (typeOf v) t

/-- The exceptions the library raises, with structured payloads standing
in for the formatted messages:

  * `noSuchAttribute` — `AttributeError` naming `type(instance).__name__`,
    raised by the base missing-value hook and by `TypedProperty.__delete__`;
  * `typeMismatch` — `TypeError` naming the required constraint and the
    actual value's class, raised by `TypedProperty.__set__`;
  * `alreadySet` — `AttributeError` reporting the existing stored value,
    raised by `SetOnceProperty.__set__`;
  * `cantSetAttribute` — the `AttributeError` raised by the inherited
    `property.__set__` when no setter is installed (`LazyProperty`);
  * `userError` — an arbitrary exception raised inside a lazy maker. -/
inductive PyErr (V : Type) where
  | noSuchAttribute (typeName : String)
  | typeMismatch (required : PyType) (actualType : PyType)
  | alreadySet (existing : V)
  | cantSetAttribute
  | userError (msg : String)
deriving DecidableEq

/-- `self._values[instance] = value` on the per-slot dictionary. -/
def storeAt {V : Type} (values : PyInstance → Option V) (i : PyInstance)
    (v : V) : PyInstance → Option V :=
  fun j => if j = i then some v else values j

/-- `del self._values[instance]` on the per-slot dictionary. -/
def removeAt {V : Type} (values : PyInstance → Option V)
    (i : PyInstance) : PyInstance → Option V :=
  fun j => if j = i then none else values j

/-- `StatefulPropertyBase._handleMissingValue`: raise `AttributeError`
identifying the instance's type. -/
def baseHandleMissingValue {V : Type} (i : PyInstance) : PyErr V :=
  PyErr.noSuchAttribute i.typeName

/-- Result of the descriptor `__get__`: the slot object itself when the
access went through the class, otherwise a value. -/
inductive GetResult (V S : Type) where
  | slotSelf (s : S)
  | val (v : V)

/-- `StatefulPropertyBase.__get__`, shared by all three subclasses and
parameterized by the concrete slot type `S`, its value map and its
(possibly state-changing, possibly raising) `_handleMissingValue` hook:
with no instance return the slot itself; on a hit return the stored
value; on a miss delegate to the hook. -/
def descGet {V E S : Type} (values : S → PyInstance → Option V)
    (handleMissing : S → PyInstance → Except E V × S)
    (self : S) (inst : Option PyInstance) :
    Except E (GetResult V S) × S :=
  match inst with
  | none => (Except.ok (GetResult.slotSelf self), self)
  | some i =>
    match values self i with
    | some v => (Except.ok (GetResult.val v), self)
    | none =>
      match handleMissing self i with
      | (Except.ok v, s) => (Except.ok (GetResult.val v), s)
      | (Except.error e, s) => (Except.error e, s)

/-! ### LazyProperty -/

/-- `LazyProperty`: the maker captured at construction, the per-instance
cache, and a counter of maker invocations.  The counter is threaded to
the maker as an extra argument so a single Lean function can model an
effectful producer whose result (or raised exception) may differ from
one invocation to the next; the Python maker receives only the
instance. -/
structure LazyProperty (V : Type) where
  maker : PyInstance → Nat → Except (PyErr V) V
  values : PyInstance → Option V
  ncalls : Nat

/-- `LazyProperty._handleMissingValue`: invoke the maker on the instance
(counting the invocation); if it returns normally, store the result in
the cache and return it; a raised exception propagates before the store
happens, leaving the cache untouched. -/
def LazyProperty.handleMissingValue {V : Type} (p : LazyProperty V)
    (i : PyInstance) : Except (PyErr V) V × LazyProperty V :=
  match p.maker i p.ncalls with
  | Except.error e =>
      (Except.error e,
       { maker := p.maker, values := p.values, ncalls := p.ncalls + 1 })
  | Except.ok v =>
      (Except.ok v,
       { maker := p.maker, values := storeAt p.values i v,
         ncalls := p.ncalls + 1 })

/-- `LazyProperty.__get__` (inherited from the base, with the lazy
missing-value hook), for an arbitrary access. -/
def LazyProperty.dget {V : Type} (p : LazyProperty V)
    (inst : Option PyInstance) :
    Except (PyErr V) (GetResult V (LazyProperty V)) × LazyProperty V :=
  descGet LazyProperty.values LazyProperty.handleMissingValue p inst

/-- `LazyProperty.__get__` specialized to an access through an instance:
return the cached value on a hit, otherwise run the missing-value hook. -/
def LazyProperty.get {V : Type} (p : LazyProperty V) (i : PyInstance) :
    Except (PyErr V) V × LazyProperty V :=
  match p.values i with
  | some v => (Except.ok v, p)
  | none => p.handleMissingValue i

/-- Modelled from the spec: `LazyProperty` defines no `__set__`, so an
assignment falls through to the setter-less `property.__set__` inherited
from the host language's `property` type (code outside this repository),
which the spec and the repository's `test_readonly` describe as always
raising the read-only `AttributeError`, with the slot left unchanged. -/
def LazyProperty.set {V : Type} (p : LazyProperty V) (_i : PyInstance)
    (_v : V) : Except (PyErr V) Unit × LazyProperty V :=
  (Except.error PyErr.cantSetAttribute, p)

/-! ### TypedProperty -/

/-- `TypedProperty`: the required type captured at construction plus the
per-instance store. -/
structure TypedProperty where
  type : PyType
  values : PyInstance → Option PyVal

/-- `TypedProperty.__get__` (inherited base `__get__` with the inherited
base missing-value hook), for an arbitrary access. -/
def TypedProperty.dget (p : TypedProperty) (inst : Option PyInstance) :
    Except (PyErr PyVal) (GetResult PyVal TypedProperty) × TypedProperty :=
  descGet TypedProperty.values
    (fun s i => (Except.error (baseHandleMissingValue i), s)) p inst

/-- `TypedProperty.__get__` through an instance: the stored value, or the
base hook's `AttributeError` on a miss. -/
def TypedProperty.get (p : TypedProperty) (i : PyInstance) :
    Except (PyErr PyVal) PyVal :=
  match p.values i with
  | some v => Except.ok v
  | none => Except.error (baseHandleMissingValue i)

/-- `TypedProperty.__set__`: store the value if it is an instance of the
required type, otherwise raise `TypeError` naming the required type and
the value's class, with the store untouched. -/
def TypedProperty.set (p : TypedProperty) (i : PyInstance) (v : PyVal) :
    Except (PyErr PyVal) Unit × TypedProperty :=
  if pyIsInstance v p.type then
    (Except.ok (), { type := p.type, values := storeAt p.values i v })
  else
    (Except.error (PyErr.typeMismatch p.type (typeOf v)), p)

/-- `TypedProperty.__delete__`: remove the entry; a missing entry's
`KeyError` is turned into the `AttributeError` naming the instance's
type, with the store untouched. -/
def TypedProperty.delete (p : TypedProperty) (i : PyInstance) :
    Except (PyErr PyVal) Unit × TypedProperty :=
  match p.values i with
  | some _ =>
      (Except.ok (), { type := p.type, values := removeAt p.values i })
  | none =>
      (Except.error (PyErr.noSuchAttribute i.typeName), p)

/-! ### SetOnceProperty -/

/-- `SetOnceProperty`: the optional default captured at construction
(`none` models the `_NoDefault` sentinel) plus the per-instance store. -/
structure SetOnceProperty (V : Type) where
  dflt : Option V
  values : PyInstance → Option V

/-- `SetOnceProperty._handleMissingValue`: with no default, defer to the
base hook's `AttributeError`; otherwise return the default (storing
nothing). -/
def SetOnceProperty.handleMissingValue {V : Type} (p : SetOnceProperty V)
    (i : PyInstance) : Except (PyErr V) V :=
  match p.dflt with
  | none => Except.error (baseHandleMissingValue i)
  | some d => Except.ok d

/-- `SetOnceProperty.__get__` (inherited base `__get__` with the set-once
missing-value hook), for an arbitrary access. -/
def SetOnceProperty.dget {V : Type} (p : SetOnceProperty V)
    (inst : Option PyInstance) :
    Except (PyErr V) (GetResult V (SetOnceProperty V)) × SetOnceProperty V :=
  descGet SetOnceProperty.values
    (fun s i => (SetOnceProperty.handleMissingValue s i, s)) p inst

/-- `SetOnceProperty.__get__` through an instance: the stored value, or
the set-once hook on a miss. -/
def SetOnceProperty.get {V : Type} (p : SetOnceProperty V)
    (i : PyInstance) : Except (PyErr V) V :=
  match p.values i with
  | some v => Except.ok v
  | none => p.handleMissingValue i

/-- `SetOnceProperty.__set__`: the lookup of the existing entry fails
with `KeyError` exactly when the slot is unset, in which case the new
value is stored; otherwise the `AttributeError` reports the existing
value (the source rebinds `value` to the stored one before raising). -/
def SetOnceProperty.set {V : Type} (p : SetOnceProperty V)
    (i : PyInstance) (v : V) : Except (PyErr V) Unit × SetOnceProperty V :=
  match p.values i with
  | none => (Except.ok (), { dflt := p.dflt, values := storeAt p.values i v })
  | some existing => (Except.error (PyErr.alreadySet existing), p)

/-! ### Concrete fixtures used by the witnesses -/

/-- A concrete owning instance, as in the tests' `obj = C()`. -/
def cInst : PyInstance := ⟨0, "C"⟩

/-- A second owning instance of the same class. -/
def cInst2 : PyInstance := ⟨1, "C"⟩

/-- A lazy slot whose maker returns the current invocation count, so a
re-invocation would return a different value (the tests' `foocount`
producer). -/
def lazyCounter : LazyProperty Nat :=
  { maker := fun _ c => Except.ok c, values := fun _ => none, ncalls := 5 }

/-- A lazy slot whose maker raises on its first invocation and returns
`7` on any later one. -/
def lazyFlaky : LazyProperty Nat :=
  { maker := fun _ c =>
      if c = 0 then Except.error (PyErr.userError "boom") else Except.ok 7,
    values := fun _ => none, ncalls := 0 }

/-- A fresh `TypedProperty(int)` slot, as in `score = TypedProperty(int)`. -/
def typedIntSlot : TypedProperty :=
  { type := PyType.tInt, values := fun _ => none }

/-- A `TypedProperty(int)` slot already holding `42` for `cInst`. -/
def typedIntSlot42 : TypedProperty :=
  { type := PyType.tInt, values := storeAt (fun _ => none) cInst (PyVal.vInt 42) }

/-- A fresh no-default `SetOnceProperty`, as in `name = SetOnceProperty()`. -/
def onceNoDefault : SetOnceProperty String :=
  { dflt := none, values := fun _ => none }

/-- A fresh defaulted slot, as in `title = SetOnceProperty(default="Ms.")`. -/
def onceWithDefault : SetOnceProperty String :=
  { dflt := some "Ms.", values := fun _ => none }

/-! ### Claims -/

/-- C1: with no cached entry for `i`, a read invokes the maker on `i`
exactly once (the invocation count rises by one), stores its result in
the cache, and returns it; the state after that read returns the same
value on a further read while leaving the slot — in particular the
invocation count — unchanged, whatever the maker would return at the
next invocation count. -/
theorem lazy_first_read_caches {V : Type} (p : LazyProperty V)
    (i : PyInstance) (v : V) (hmiss : p.values i = none)
    (hmk : p.maker i p.ncalls = Except.ok v) :
    (p.get i).1 = Except.ok v ∧
    ((p.get i).2).ncalls = p.ncalls + 1 ∧
    ((p.get i).2).values i = some v ∧
    ((p.get i).2).get i = (Except.ok v, (p.get i).2) := by
  refine ⟨?_, ?_, ?_, ?_⟩ <;>
    simp [LazyProperty.get, hmiss, LazyProperty.handleMissingValue, hmk,
      storeAt]

/-- C1 witness: a maker returning the invocation count (here starting at
count `5`) is cached at `5`; the second read still returns `5` and does
not bump the count, even though a re-invocation would have returned `6`. -/
theorem lazy_first_read_caches_witness :
    (lazyCounter.get cInst).1 = Except.ok 5 ∧
    ((lazyCounter.get cInst).2).ncalls = lazyCounter.ncalls + 1 ∧
    ((lazyCounter.get cInst).2).values cInst = some 5 ∧
    ((lazyCounter.get cInst).2).get cInst =
      (Except.ok 5, (lazyCounter.get cInst).2) :=
  lazy_first_read_caches lazyCounter cInst 5 rfl rfl

/-- C2: a write of a value satisfying the constraint succeeds, stores the
value for `i` (overwriting whatever was there) while leaving every other
instance's entry alone, and a subsequent read returns it. -/
theorem typed_write_read_roundtrip (p : TypedProperty) (i : PyInstance)
    (v : PyVal) (hv : pyIsInstance v p.type = true) :
    (p.set i v).1 = Except.ok () ∧
    ((p.set i v).2).values i = some v ∧
    ((p.set i v).2).get i = Except.ok v ∧
    ∀ j, j ≠ i → ((p.set i v).2).values j = p.values j := by
  refine ⟨?_, ?_, ?_, ?_⟩
  · simp [TypedProperty.set, hv]
  · simp [TypedProperty.set, hv, storeAt]
  · simp [TypedProperty.set, hv, TypedProperty.get, storeAt]
  · intro j hj
    simp [TypedProperty.set, hv, storeAt, hj]

/-- C2 witness: `obj.score = 37` on a slot already holding `42`
overwrites it and reads back `37`; the other instance stays unset. -/
theorem typed_write_read_roundtrip_witness :
    (typedIntSlot42.set cInst (PyVal.vInt 37)).1 = Except.ok () ∧
    ((typedIntSlot42.set cInst (PyVal.vInt 37)).2).values cInst =
      some (PyVal.vInt 37) ∧
    ((typedIntSlot42.set cInst (PyVal.vInt 37)).2).get cInst =
      Except.ok (PyVal.vInt 37) ∧
    ((typedIntSlot42.set cInst (PyVal.vInt 37)).2).values cInst2 =
      typedIntSlot42.values cInst2 := by
  have h := typed_write_read_roundtrip typedIntSlot42 cInst
    (PyVal.vInt 37) rfl
  exact ⟨h.1, h.2.1, h.2.2.1, h.2.2.2 cInst2 (by decide)⟩

/-- C3: a write of a value failing the constraint raises `TypeError`
carrying the required constraint and the actual value's class, and
returns the slot completely unchanged (entry present or absent). -/
theorem typed_write_mismatch (p : TypedProperty) (i : PyInstance)
    (v : PyVal) (hv : pyIsInstance v p.type = false) :
    p.set i v = (Except.error (PyErr.typeMismatch p.type (typeOf v)), p) := by
  simp [TypedProperty.set, hv]

/-- C3 witness: `obj.score = "banana"` on a slot holding `42` fails with
the `int` vs `str` mismatch; the slot object is untouched, so `42` is
still stored and still readable. -/
theorem typed_write_mismatch_witness :
    typedIntSlot42.set cInst (PyVal.vStr "banana") =
      (Except.error (PyErr.typeMismatch PyType.tInt PyType.tStr),
       typedIntSlot42) ∧
    typedIntSlot42.get cInst = Except.ok (PyVal.vInt 42) :=
  ⟨typed_write_mismatch typedIntSlot42 cInst (PyVal.vStr "banana") rfl,
   by simp [typedIntSlot42, TypedProperty.get, storeAt, cInst]⟩

/-- C4: the first write to an unset set-once slot succeeds and stores the
value; a read then returns it; any further write to that instance fails
with `AlreadySet` reporting the stored value and leaves the slot
unchanged; and on any set-once slot, no write whatsoever (to this or any
other instance) can change an existing entry, so the stored value is
permanent. -/
theorem once_write_once {V : Type} (p : SetOnceProperty V)
    (i : PyInstance) (v : V) (hmiss : p.values i = none) :
    (p.set i v).1 = Except.ok () ∧
    ((p.set i v).2).values i = some v ∧
    ((p.set i v).2).get i = Except.ok v ∧
    (∀ w, ((p.set i v).2).set i w =
      (Except.error (PyErr.alreadySet v), (p.set i v).2)) ∧
    (∀ (q : SetOnceProperty V) (j : PyInstance) (w : V),
      q.values i = some v → ((q.set j w).2).values i = some v) := by
  refine ⟨?_, ?_, ?_, ?_, ?_⟩
  · simp [SetOnceProperty.set, hmiss]
  · simp [SetOnceProperty.set, hmiss, storeAt]
  · simp [SetOnceProperty.set, hmiss, SetOnceProperty.get, storeAt]
  · intro w
    simp [SetOnceProperty.set, hmiss, storeAt]
  · intro q j w hq
    cases hqj : q.values j with
    | some e => simp [SetOnceProperty.set, hqj, hq]
    | none =>
      have hij : i ≠ j := by
        intro h
        rw [h, hqj] at hq
        exact Option.noConfusion hq
      simp [SetOnceProperty.set, hqj, storeAt, hij, hq]

/-- C4 witness: on a fresh no-default slot, `obj.name = "Charlie"`
succeeds and reads back; `obj.name = "Johnny"` fails with `AlreadySet`
reporting `"Charlie"` and changes nothing. -/
theorem once_write_once_witness :
    (onceNoDefault.set cInst "Charlie").1 = Except.ok () ∧
    ((onceNoDefault.set cInst "Charlie").2).values cInst = some "Charlie" ∧
    ((onceNoDefault.set cInst "Charlie").2).get cInst =
      Except.ok "Charlie" ∧
    ((onceNoDefault.set cInst "Charlie").2).set cInst "Johnny" =
      (Except.error (PyErr.alreadySet "Charlie"),
       (onceNoDefault.set cInst "Charlie").2) := by
  have h := once_write_once onceNoDefault cInst "Charlie" rfl
  exact ⟨h.1, h.2.1, h.2.2.1, h.2.2.2.1 "Johnny"⟩

/-- C5: reads of a set-once slot never change it (the descriptor get
returns the slot unaltered on every access); a read returns the stored
value when the entry exists; with no entry and a configured default it
returns the default and — no entry having been created — a first write
afterwards still succeeds and stores its value; with no entry and no
default it fails with the `AttributeError` naming the instance's type. -/
theorem once_read_cases {V : Type} (p : SetOnceProperty V)
    (i : PyInstance) :
    (∀ inst, (p.dget inst).2 = p) ∧
    (∀ v, p.values i = some v → p.get i = Except.ok v) ∧
    (∀ d, p.values i = none → p.dflt = some d →
      p.get i = Except.ok d ∧
      ∀ w, (p.set i w).1 = Except.ok () ∧
        ((p.set i w).2).values i = some w) ∧
    (p.values i = none → p.dflt = none →
      p.get i = Except.error (PyErr.noSuchAttribute i.typeName)) := by
  refine ⟨?_, ?_, ?_, ?_⟩
  · intro inst
    cases inst with
    | none => rfl
    | some j =>
      cases hv : p.values j with
      | some v => simp [SetOnceProperty.dget, descGet, hv]
      | none =>
        cases he : p.handleMissingValue j with
        | ok v => simp [SetOnceProperty.dget, descGet, hv, he]
        | error e => simp [SetOnceProperty.dget, descGet, hv, he]
  · intro v hv
    simp [SetOnceProperty.get, hv]
  · intro d hv hd
    refine ⟨?_, ?_⟩
    · simp [SetOnceProperty.get, hv, SetOnceProperty.handleMissingValue, hd]
    · intro w
      constructor
      · simp [SetOnceProperty.set, hv]
      · simp [SetOnceProperty.set, hv, storeAt]
  · intro hv hd
    simp [SetOnceProperty.get, hv, SetOnceProperty.handleMissingValue, hd,
      baseHandleMissingValue]

/-- C5 witness: `obj.title` on the defaulted slot returns `"Ms."` before
any write, and `obj.title = "Dr."` afterwards still succeeds and stores
`"Dr."`. -/
theorem once_read_cases_witness :
    onceWithDefault.get cInst = Except.ok "Ms." ∧
    (onceWithDefault.set cInst "Dr.").1 = Except.ok () ∧
    ((onceWithDefault.set cInst "Dr.").2).values cInst = some "Dr." := by
  have h := (once_read_cases onceWithDefault cInst).2.2.1 "Ms." rfl rfl
  exact ⟨h.1, (h.2 "Dr.").1, (h.2 "Dr.").2⟩

/-- C6: erasing an existing entry succeeds and removes it, after which a
read and a second erase both fail with the `AttributeError` naming the
instance's type, until a successful write stores a value that reads back
again; erasing any slot with no entry for the target instance fails the
same way and leaves the slot unchanged. -/
theorem typed_erase (p : TypedProperty) (i : PyInstance) (v : PyVal)
    (h : p.values i = some v) :
    (p.delete i).1 = Except.ok () ∧
    ((p.delete i).2).values i = none ∧
    ((p.delete i).2).get i =
      Except.error (PyErr.noSuchAttribute i.typeName) ∧
    ((p.delete i).2).delete i =
      (Except.error (PyErr.noSuchAttribute i.typeName), (p.delete i).2) ∧
    (∀ w, pyIsInstance w p.type = true →
      (((p.delete i).2).set i w).1 = Except.ok () ∧
      ((((p.delete i).2).set i w).2).get i = Except.ok w) ∧
    (∀ (q : TypedProperty) (j : PyInstance), q.values j = none →
      q.delete j = (Except.error (PyErr.noSuchAttribute j.typeName), q)) := by
  refine ⟨?_, ?_, ?_, ?_, ?_, ?_⟩
  · simp [TypedProperty.delete, h]
  · simp [TypedProperty.delete, h, removeAt]
  · simp [TypedProperty.delete, h, TypedProperty.get, removeAt,
      baseHandleMissingValue]
  · simp [TypedProperty.delete, h, removeAt]
  · intro w hw
    constructor
    · simp [TypedProperty.delete, h, TypedProperty.set, hw]
    · simp [TypedProperty.delete, h, TypedProperty.set, hw,
        TypedProperty.get, storeAt]
  · intro q j hq
    simp [TypedProperty.delete, hq]

/-- C6 witness: `del obj.score` on a slot holding `42` succeeds; the
following read and the second `del` both fail with the `AttributeError`
for type `C`; writing `7` afterwards succeeds and reads back. -/
theorem typed_erase_witness :
    (typedIntSlot42.delete cInst).1 = Except.ok () ∧
    ((typedIntSlot42.delete cInst).2).get cInst =
      Except.error (PyErr.noSuchAttribute "C") ∧
    ((typedIntSlot42.delete cInst).2).delete cInst =
      (Except.error (PyErr.noSuchAttribute "C"),
       (typedIntSlot42.delete cInst).2) ∧
    (((typedIntSlot42.delete cInst).2).set cInst (PyVal.vInt 7)).1 =
      Except.ok () ∧
    ((((typedIntSlot42.delete cInst).2).set cInst (PyVal.vInt 7)).2).get
      cInst = Except.ok (PyVal.vInt 7) := by
  have h := typed_erase typedIntSlot42 cInst (PyVal.vInt 42)
    (by simp [typedIntSlot42, storeAt])
  have hset := h.2.2.2.2.1 (PyVal.vInt 7) rfl
  exact ⟨h.1, h.2.2.1, h.2.2.2.1, hset.1, hset.2⟩

/-- C7: assignment to a lazy slot always fails with the read-only
`AttributeError` of the inherited setter-less `property`, and leaves the
slot unchanged, whether or not the value has been computed and cached. -/
theorem lazy_not_writable {V : Type} (p : LazyProperty V)
    (i : PyInstance) (v : V) :
    p.set i v = (Except.error PyErr.cantSetAttribute, p) := rfl

/-- C8: accessing any of the three slot kinds through the class (no
instance) returns the slot object itself unchanged, not a stored value
and not an error. -/
theorem class_access_returns_slot {V : Type} (lp : LazyProperty V)
    (tp : TypedProperty) (sp : SetOnceProperty V) :
    lp.dget none = (Except.ok (GetResult.slotSelf lp), lp) ∧
    tp.dget none = (Except.ok (GetResult.slotSelf tp), tp) ∧
    sp.dget none = (Except.ok (GetResult.slotSelf sp), sp) :=
  ⟨rfl, rfl, rfl⟩

/-- C9: the constraint check is `isinstance`, so a `bool` written to a
`TypedProperty(int)` slot is accepted and stored (Python's `bool` being
a subclass of `int`), not rejected with the type mismatch. -/
theorem typed_accepts_bool_for_int (p : TypedProperty) (i : PyInstance)
    (b : Bool) (h : p.type = PyType.tInt) :
    (p.set i (PyVal.vBool b)).1 = Except.ok () ∧
    ((p.set i (PyVal.vBool b)).2).values i = some (PyVal.vBool b) ∧
    ((p.set i (PyVal.vBool b)).2).get i = Except.ok (PyVal.vBool b) := by
  refine ⟨?_, ?_, ?_⟩ <;>
    simp [TypedProperty.set, pyIsInstance, typeOf, isSubclassB, h, storeAt,
      TypedProperty.get]

/-- C9 witness: writing `True` to the fresh `TypedProperty(int)` slot
succeeds and reads back as `True`, not as a `TypeMismatch`. -/
theorem typed_accepts_bool_for_int_witness :
    (typedIntSlot.set cInst (PyVal.vBool true)).1 = Except.ok () ∧
    ((typedIntSlot.set cInst (PyVal.vBool true)).2).values cInst =
      some (PyVal.vBool true) ∧
    ((typedIntSlot.set cInst (PyVal.vBool true)).2).get cInst =
      Except.ok (PyVal.vBool true) :=
  typed_accepts_bool_for_int typedIntSlot cInst true rfl

/-- C10: if the maker raises on a cache miss, the error propagates, no
entry is stored (the whole value map is unchanged, though the invocation
was counted), and the next read for that instance invokes the maker
again — the invocation count rises once more — returning and caching
whatever the maker now produces if it returns normally. -/
theorem lazy_producer_error {V : Type} (p : LazyProperty V)
    (i : PyInstance) (e : PyErr V) (hmiss : p.values i = none)
    (hmk : p.maker i p.ncalls = Except.error e) :
    (p.get i).1 = Except.error e ∧
    ((p.get i).2).values = p.values ∧
    ((p.get i).2).maker = p.maker ∧
    ((p.get i).2).ncalls = p.ncalls + 1 ∧
    ((((p.get i).2).get i).2).ncalls = p.ncalls + 2 ∧
    (∀ v, p.maker i (p.ncalls + 1) = Except.ok v →
      (((p.get i).2).get i).1 = Except.ok v ∧
      ((((p.get i).2).get i).2).values i = some v) := by
  have h1 : p.get i =
      (Except.error e,
       { maker := p.maker, values := p.values, ncalls := p.ncalls + 1 }) := by
    simp [LazyProperty.get, hmiss, LazyProperty.handleMissingValue, hmk]
  rw [h1]
  refine ⟨rfl, rfl, rfl, rfl, ?_, ?_⟩
  · cases h2 : p.maker i (p.ncalls + 1) with
    | ok v =>
      simp [LazyProperty.get, hmiss, LazyProperty.handleMissingValue, h2]
    | error e2 =>
      simp [LazyProperty.get, hmiss, LazyProperty.handleMissingValue, h2]
  · intro v hv
    constructor
    · simp [LazyProperty.get, hmiss, LazyProperty.handleMissingValue, hv]
    · simp [LazyProperty.get, hmiss, LazyProperty.handleMissingValue, hv,
        storeAt]

/-- C10 witness: a maker that raises on its first invocation and returns
`7` on the next: the first read propagates the error and caches nothing;
the second read invokes the maker again and returns `7`. -/
theorem lazy_producer_error_witness :
    (lazyFlaky.get cInst).1 = Except.error (PyErr.userError "boom") ∧
    ((lazyFlaky.get cInst).2).values cInst = none ∧
    (((lazyFlaky.get cInst).2).get cInst).1 = Except.ok 7 ∧
    ((((lazyFlaky.get cInst).2).get cInst).2).values cInst = some 7 := by
  have h := lazy_producer_error lazyFlaky cInst (PyErr.userError "boom")
    rfl rfl
  have h2 := h.2.2.2.2.2 7 rfl
  refine ⟨h.1, ?_, h2.1, h2.2⟩
  rw [h.2.1]
  rfl

end Proptools
